import Mathlib

/-!
Verification of the session-orchestration backend
(`backend/orchestrator.py`, `backend/main.py`, `backend/agent_core.py`,
`backend/browser_service.py`, `backend/reporting.py`) against its
natural-language specification.

The Python code is shallowly embedded: duck-typed JSON dictionaries become
the inductive type `J`; Python strings are compared as Lean `String`s, and
where character counts matter (accessibility-node names) they are modelled
as `List Char`, matching Python's character-based `len`/slicing; awaited
browser/model primitives whose outcome depends on the outside world become
explicit fields of environment records (`BrowserEnv`) or per-cycle script
inputs, and an exception outcome is an `Except` error value.
-/

/-- Python/JSON-style dynamic values, as produced by `json.loads` and passed
around by the backend (`full_decision`, `decision`, history entries). -/
inductive J where
  | null
  | bool (b : Bool)
  | num (n : Int)
  | str (s : String)
  | arr (xs : List J)
  | obj (kvs : List (String × J))

namespace J

/-- `j == "lit"` for the string comparisons the code performs
(`action_type == "finish"` and the like); false on non-strings, matching
Python equality against a string literal. -/
def isStr : J → String → Bool
  | .str t, s => t == s
  | _, _ => false

/-- `action_type in ["click", "type", "hover"]` and similar membership tests
against lists of string literals. -/
def isStrIn (j : J) (l : List String) : Bool :=
  l.any (fun s => j.isStr s)

/-- Python truthiness, as used in `if decision.get("locator"):`,
`value or url or key`, `if selector and ...`. -/
def truthy : J → Bool
  | .null => false
  | .bool b => b
  | .num n => n != 0
  | .str s => s != ""
  | .arr xs => !xs.isEmpty
  | .obj kvs => !kvs.isEmpty

/-- `d.get(k)`: the stored value when the key is present (which may itself be
`None`), Python `None` when absent.  The code only calls `.get` on values it
knows to be dictionaries. -/
def get : J → String → J
  | .obj kvs, k => ((kvs.find? (fun kv => kv.1 == k)).map Prod.snd).getD .null
  | _, _ => .null

/-- `d.get(k, default)`: the stored value when the key is present, the given
default when absent. -/
def getD : J → String → J → J
  | .obj kvs, k, d => ((kvs.find? (fun kv => kv.1 == k)).map Prod.snd).getD d
  | _, _, d => d

/-- Python `a or b`: `a` when truthy, otherwise `b`. -/
def pyOr (a b : J) : J := if a.truthy then a else b

end J

/-! ## AccessibilitySnapshotFilter (`BrowserService.get_accessibility_snapshot`)

A raw CDP accessibility node is accessed by the code as
`n.get("role", {}).get("value")`, `n.get("name", {}).get("value") or ""`,
`n.get("ignored")`, `n.get("nodeId")`, `n.get("backendDOMNodeId")`.  We embed
exactly those access results.  Names are `List Char` so that `len(name)` and
`name[:100]` are Python's character-based length and slice. -/

structure RawNode where
  /-- `n.get("nodeId")` -/
  nodeId : Option String := none
  /-- `n.get("role", {}).get("value")`: `none` when the role object or its
  `value` is absent. -/
  roleValue : Option String := none
  /-- `n.get("name", {}).get("value")`: `none` when absent/None. -/
  nameValue : Option (List Char) := none
  /-- truthiness of `n.get("ignored")` (absent counts as false). -/
  ignored : Bool := false
  /-- `n.get("backendDOMNodeId")` -/
  backendDOMNodeId : Option Nat := none
deriving DecidableEq, Repr

/-- One entry of the simplified snapshot the filter appends:
`{"nodeId": ..., "role": ..., "name": name[:100], "backendDOMNodeId": ...}`. -/
structure Candidate where
  nodeId : Option String
  role : Option String
  name : List Char
  backendDOMNodeId : Option Nat
deriving DecidableEq, Repr

/-- `interactive_roles` from `get_accessibility_snapshot`. -/
def interactive_roles : List String :=
  ["button", "link", "textbox", "checkbox", "combobox", "listbox",
   "searchbox", "menuitem", "menu", "tab"]

/-- Python `x in roles` for an optional role (`None in roles` is false). -/
def optRoleIn (o : Option String) (roles : List String) : Bool :=
  match o with
  | some s => roles.contains s
  | none => false

/-- `name = n.get("name", {}).get("value") or ""`. -/
def RawNode.name (n : RawNode) : List Char := n.nameValue.getD []

/-- The node is appended iff the heuristic disjunction at
`browser_service.py:231` holds and the nested `if n.get("ignored"): continue`
at line 233 does not fire. -/
def codeKeep (n : RawNode) : Bool :=
  (optRoleIn n.roleValue interactive_roles
    || (n.roleValue == some "statictext" && decide (n.name.length > 3))
    || (n.roleValue == some "image" && decide (n.name.length > 0)))
  && !n.ignored

/-- The dictionary appended for a kept node (name truncated, `name[:100]`). -/
def toCandidate (n : RawNode) : Candidate :=
  ⟨n.nodeId, n.roleValue, n.name.take 100, n.backendDOMNodeId⟩

/-- The `for n in nodes` loop of `get_accessibility_snapshot`, building
`simplified` by appending kept nodes in source order. -/
def simplify : List RawNode → List Candidate
  | [] => []
  | n :: rest => if codeKeep n then toCandidate n :: simplify rest else simplify rest

/-- `return {"nodes": simplified[:200]}` — the filtered snapshot body. -/
def filterSnapshot (nodes : List RawNode) : List Candidate :=
  (simplify nodes).take 200

/-- The snapshot returned to callers: always a dictionary with the single
key `"nodes"`, holding a list. -/
structure Snapshot where
  nodes : List Candidate
deriving DecidableEq, Repr

/-- Outcome of `self.cdp_session.send("Accessibility.getFullAXTree")`:
either the raw node list or a raised exception. -/
structure AxEnv where
  hasCdp : Bool
  fetch : Except String (List RawNode)

/-- `BrowserService.get_accessibility_snapshot`: no CDP session gives
`{"nodes": []}`; a raised fetch (or any exception inside the `try`) is
caught and gives `{"nodes": []}`; otherwise the filtered, capped list. -/
def get_accessibility_snapshot (env : AxEnv) : Snapshot :=
  if !env.hasCdp then ⟨[]⟩
  else
    match env.fetch with
    | .error _ => ⟨[]⟩
    | .ok nodes => ⟨filterSnapshot nodes⟩

/-- The keep predicate exactly as the spec sentence behind claim C5 words it,
including its final "OR name length > 0" disjunct. -/
def claimKeepC5 (n : RawNode) : Bool :=
  !n.ignored
  && (optRoleIn n.roleValue interactive_roles
      || (n.roleValue == some "statictext" && decide (3 < n.name.length))
      || (n.roleValue == some "image" && decide (0 < n.name.length))
      || decide (0 < n.name.length))

/-- The keep predicate with the unsupported "OR name length > 0" disjunct
removed — the amended form of claim C5. -/
def amendedKeepC5 (n : RawNode) : Bool :=
  !n.ignored
  && (optRoleIn n.roleValue interactive_roles
      || (n.roleValue == some "statictext" && decide (3 < n.name.length))
      || (n.roleValue == some "image" && decide (0 < n.name.length)))

/-- A node with a non-interactive role and a non-empty name: the spec's
predicate keeps it, the code's filter drops it. -/
def c5Node : RawNode :=
  { nodeId := some "7", roleValue := some "heading",
    nameValue := some "Hello".toList, ignored := false,
    backendDOMNodeId := some 42 }

/-! ## BrowserInteractionLayer (`BrowserService.execute_action`)

Each awaited Playwright/CDP primitive inside `execute_action` is an
environment field holding its outcome for this call: `.ok ()` when the await
returns, `.error e` when it raises.  Exceptions inside the Tier-1 and Tier-2
`try` blocks are caught (the tier merely fails); Tier-3 primitives are not
wrapped, so their errors are the function's errors. -/

/-- Did the awaited primitive return without raising? -/
def exOk : Except String Unit → Bool
  | .ok _ => true
  | .error _ => false

/-- `box["model"]["content"]`: the four corner points, flattened as
`[x1, y1, x2, y2, x3, y3, x4, y4]` (`DOM.getBoxModel` quad layout). -/
structure Quad where
  x1 : Rat
  y1 : Rat
  x2 : Rat
  y2 : Rat
  x3 : Rat
  y3 : Rat
  x4 : Rat
  y4 : Rat
deriving DecidableEq, Repr

/-- Lines 126–127: the interaction point, the mean of the four x and of the
four y coordinates. -/
def quadCenter (q : Quad) : Rat × Rat :=
  ((q.x1 + q.x2 + q.x3 + q.x4) / 4, (q.y1 + q.y2 + q.y3 + q.y4) / 4)

/-- Per-call outcomes of the awaited primitives used by `execute_action`. -/
structure BrowserEnv where
  /-- truthiness of `self.page` (`raise Exception("Browser not started")`
  when false). -/
  hasPage : Bool
  /-- the CDP state seen by the Tier-1 call to
  `get_accessibility_snapshot`. -/
  ax : AxEnv
  /-- `DOM.getBoxModel`: raised, returned without a `"model"` key, or
  returned a content quad. -/
  boxModel : Except String (Option Quad)
  /-- `page.evaluate` of the red-dot marker. -/
  evalDot : Except String Unit
  /-- `page.mouse.move(x, y, steps=5)`. -/
  mouseMove : Except String Unit
  /-- `page.mouse.click(x, y)`. -/
  clickAct : Except String Unit
  /-- `page.keyboard.type(value)` when `value` is a string. -/
  typeAct : Except String Unit
  /-- Tier-1 `wait_for_load_state("networkidle", timeout=5000)`. -/
  t1Idle : Except String Unit
  /-- the Tier-2 locator action (`click`/`fill`/`hover`/
  `scroll_into_view_if_needed`, each with `timeout=5000`). -/
  locatorAct : Except String Unit
  /-- Tier-2 `wait_for_load_state("networkidle", timeout=5000)`. -/
  t2Idle : Except String Unit
  /-- `page.goto(url, timeout=30000)`. -/
  gotoResult : Except String Unit
  /-- `wait_for_load_state("load", timeout=10000)` after `goto`. -/
  loadWait : Except String Unit
  /-- `page.keyboard.press(value)` when `value` is a string. -/
  pressResult : Except String Unit
  /-- `page.evaluate("window.scrollBy(0, 500)")`. -/
  scrollEval : Except String Unit
  /-- the final `wait_for_load_state("networkidle", timeout=5000)`; it sits
  in its own `try/except`, so the function's result never depends on it. -/
  finalIdle : Except String Unit

/-- `n.get("nodeId") == node_id` against a simplified-snapshot entry.  The
lookup only runs when `node_id` is truthy, so a stored `None` id (which
Python would compare equal only to `None`) never matches. -/
def candMatches (c : Candidate) (nid : J) : Bool :=
  match c.nodeId with
  | some s => nid.isStr s
  | none => false

/-- Tier-1 applicability guard (line 112):
`if node_id and action_type in ["click", "type", "hover"]:`. -/
def tier1Applies (k nid : J) : Bool :=
  nid.truthy && k.isStrIn ["click", "type", "hover"]

/-- Tier-2 applicability guard (line 166):
`if selector and action_type in ["click", "type", "hover", "scroll"]:`. -/
def tier2Applies (k sel : J) : Bool :=
  sel.truthy && k.isStrIn ["click", "type", "hover", "scroll"]

/-- The Tier-1 `try` block (lines 114–163): true iff it reaches `return`.
Node lookup misses, a missing backing id (Playwright raises on a `None`
`backendNodeId`), a missing box model, a raised primitive, and a Tier-1
network-idle timeout all leave it false — the exception (if any) is caught
and control falls through to Tier 2.  Note the code performs no pointer act
for `hover`, and `keyboard.type` raises on a non-string value. -/
def tier1Attempt (env : BrowserEnv) (k v nid : J) : Bool :=
  match (get_accessibility_snapshot env.ax).nodes.find? (fun c => candMatches c nid) with
  | none => false
  | some c =>
    match c.backendDOMNodeId with
    | none => false
    | some _ =>
      match env.boxModel with
      | .error _ => false
      | .ok none => false
      | .ok (some _) =>
        exOk env.evalDot && exOk env.mouseMove
          && (if k.isStr "click" then exOk env.clickAct
              else if k.isStr "type" then
                exOk env.clickAct
                  && (match v with | .str _ => exOk env.typeAct | _ => false)
              else true)
          && exOk env.t1Idle

/-- The Tier-2 `try` block (lines 168–186): highlight is best-effort and
never raises; then the locator action (`fill` raises on a non-string value)
and the Tier-2 network-idle wait must both return for the block to reach
`return`. -/
def tier2Attempt (env : BrowserEnv) (k v : J) : Bool :=
  (if k.isStr "type" then
     match v with | .str _ => exOk env.locatorAct | _ => false
   else exOk env.locatorAct)
  && exOk env.t2Idle

/-- Which tiers an `execute_action` call attempted, in order. -/
inductive Tier where
  | t1
  | t2
  | t3nav
  | t3press
  | t3scroll
deriving DecidableEq, Repr

/-- Result of `execute_action`: the returned/raised outcome plus the
attempted-tier trace. -/
structure ExecResult where
  outcome : Except String Unit
  tiers : List Tier
deriving Repr

/-- `BrowserService.execute_action(action_type, selector, value, node_id)`
(lines 104–206).  No page raises; Tier 1 and Tier 2 failures are swallowed
and fall through; the Tier-3 primitives (`goto`, its load wait, `press`,
the targetless-scroll evaluate) are unguarded, so their exceptions
propagate; the trailing network-idle wait is guarded and never affects the
outcome. -/
def execute_action (env : BrowserEnv) (action_type selector value node_id : J) :
    ExecResult :=
  if !env.hasPage then ⟨.error "Browser not started", []⟩
  else if tier1Applies action_type node_id && tier1Attempt env action_type value node_id then
    ⟨.ok (), [.t1]⟩
  else
    let attempted1 : List Tier := if tier1Applies action_type node_id then [.t1] else []
    if tier2Applies action_type selector && tier2Attempt env action_type value then
      ⟨.ok (), attempted1 ++ [.t2]⟩
    else
      let attempted2 : List Tier :=
        attempted1 ++ (if tier2Applies action_type selector then [Tier.t2] else [])
      if action_type.isStr "navigate" then
        let url := value.pyOr selector
        if url.truthy then
          match url with
          | .str _ =>
            match env.gotoResult with
            | .error e => ⟨.error e, attempted2 ++ [.t3nav]⟩
            | .ok _ =>
              match env.loadWait with
              | .error e => ⟨.error e, attempted2 ++ [.t3nav]⟩
              | .ok _ => ⟨.ok (), attempted2 ++ [.t3nav]⟩
          | _ => ⟨.error "AttributeError: startswith", attempted2 ++ [.t3nav]⟩
        else ⟨.ok (), attempted2⟩
      else if action_type.isStr "press" then
        match value with
        | .str _ =>
          match env.pressResult with
          | .error e => ⟨.error e, attempted2 ++ [.t3press]⟩
          | .ok _ => ⟨.ok (), attempted2 ++ [.t3press]⟩
        | _ => ⟨.error "TypeError: press expects a string key", attempted2 ++ [.t3press]⟩
      else if action_type.isStr "scroll" && !selector.truthy then
        match env.scrollEval with
        | .error e => ⟨.error e, attempted2 ++ [.t3scroll]⟩
        | .ok _ => ⟨.ok (), attempted2 ++ [.t3scroll]⟩
      else ⟨.ok (), attempted2⟩

/-- The URL actually passed to `page.goto` (lines 190–193): the default
scheme is prefixed when the value does not start with `"http"`. -/
def navUrl (u : String) : String :=
  if !u.startsWith "http" then "https://" ++ u else u

/-! ## Tier-3 error surface (for the corrected form of claim C4) -/

/-- The conditions under which the unguarded Tier-3 code raises: a truthy
navigate target whose `goto` or load wait raises (or that is not a string,
on which `startswith` raises), a `press` whose key is missing/non-string or
whose dispatch raises, and a targetless scroll whose evaluate raises. -/
def tier3Error (env : BrowserEnv) (k sel v : J) : Bool :=
  (k.isStr "navigate" && (v.pyOr sel).truthy &&
    (match v.pyOr sel with
     | .str _ => !exOk env.gotoResult || !exOk env.loadWait
     | _ => true))
  || (k.isStr "press" &&
    (match v with
     | .str _ => !exOk env.pressResult
     | _ => true))
  || (k.isStr "scroll" && !sel.truthy && !exOk env.scrollEval)

/-! ## AgentCore (`AgentCore.analyze_state_and_decide`)

The model call plus response parsing is one externally-determined outcome:
either a parsed JSON decision or a raised exception. -/

/-- The dictionary returned on any exception (agent_core.py line 96):
`{"type": "fail", "reason": f"Agent error: {e}", "description": "Error
thinking"}` — note the *flat* shape, with no `"action"` key. -/
def agentFailFallback (e : String) : J :=
  J.obj [("type", J.str "fail"),
         ("reason", J.str ("Agent error: " ++ e)),
         ("description", J.str "Error thinking")]

/-- `AgentCore.analyze_state_and_decide`, abstracted over the model-call
outcome: returns the parsed decision, or the fallback dictionary when the
call raised, timed out, or its body failed to parse. -/
def analyze_state_and_decide (modelOutcome : Except String J) : J :=
  match modelOutcome with
  | .ok d => d
  | .error e => agentFailFallback e

/-! ## SessionOrchestrator (`Orchestrator._run_loop` / `Orchestrator.stop`)

The loop is embedded as a recursion over a script of per-cycle inputs: what
the decision call produced (or that a Stop cancelled the loop at that
await), what `execute_action` did, and — in step mode — the control message
consumed while paused.  Effects observable at the Transport/ReportSink are
accumulated in order. -/

/-- Effects emitted by the loop, `stop()`, and the websocket loop: transport
messages, ReportSink calls, the `execute_action` call (with the target
fields the loop forwards), and the retry backoff sleep. -/
inductive Eff where
  | wsLog
  | wsState
  | wsThought
  | wsPause
  | wsSuccess
  | wsError
  | logStep
  | endSession (status : String)
  | reportLink
  | execCall (selector value nodeId : J)
  | sleepBackoff

/-- Is the effect an `EndSession(status)` ReportSink call? -/
def Eff.isEnd : Eff → Bool
  | .endSession _ => true
  | _ => false

/-- Is the effect a `report{url}` notification? -/
def Eff.isReport : Eff → Bool
  | .reportLink => true
  | _ => false

/-- `val = decision.get("value") or decision.get("url") or decision.get("key")`
(orchestrator.py line 150, main.py line 149). -/
def forwardedValue (d : J) : J :=
  ((d.get "value").pyOr (d.get "url")).pyOr (d.get "key")

/-- `decision.get("selector")`, the selector argument of the
`execute_action` call (orchestrator.py line 154, main.py line 151). -/
def forwardedSelector (d : J) : J := d.get "selector"

/-- `decision.get("nodeId")` (orchestrator.py line 151, main.py line 150). -/
def forwardedNodeId (d : J) : J := d.get "nodeId"

/-- `decision = full_decision.get("action", {})` (orchestrator.py line 109,
main.py line 126). -/
def actionOf (full : J) : J := full.getD "action" (J.obj [])

/-- `full_decision.get("action", {}).get("type")`: the action kind the loops
classify on. -/
def classifyType (full : J) : J :=
  (actionOf full).get "type"

/-- `use_pro` (orchestrator.py line 99, main.py line 116): the
tier-escalation flag passed to the decision call. -/
def use_pro (history : List J) : Bool :=
  history.isEmpty ||
    (match history.getLast? with
     | some last => (classifyType last).isStr "fail"
     | none => false)

/-- The control message consumed at the step-mode pause point of
`Orchestrator._run_loop` (line 166), or a Stop cancelling that await. -/
inductive PauseIn where
  | msg (m : J)
  | cancelled

/-- One loop cycle's external inputs: either a Stop cancels the loop at the
decision await, or the decision call returns `d` (the agent never raises —
its own `except` returns the fallback dictionary) and `execute_action` has
the given outcome, with `pause` consumed only in step mode. -/
inductive CycleIn where
  | stopDuringDecide
  | cycle (d : J) (exec : Except String Unit) (pause : PauseIn)

/-- How `Orchestrator._run_loop` left its `while`. -/
inductive LoopExit where
  | scriptEnd
  | finished
  | failedDecision
  | pauseStopped
  | critical
  | cancelled
deriving DecidableEq, Repr

/-- `Orchestrator._run_loop` (lines 82–181), without its `finally`: per
cycle it emits the state notification and "Thinking..." log, then either is
cancelled at the decision await, or classifies the decision — `finish` ends
the session as success, `fail` as failed, anything else is executed; an
exception from `execute_action` escapes the `while` into the outer `except`
(one error notification, loop over).  Returns the effect trace, the exit
kind, and the final history. -/
def runLoop (stepMode : Bool) : List CycleIn → List J → List Eff × LoopExit × List J
  | [], h => ([], .scriptEnd, h)
  | .stopDuringDecide :: _, h => ([.wsState, .wsLog], .cancelled, h)
  | .cycle d ex pause :: rest, h =>
    let pre : List Eff :=
      [.wsState, .wsLog]
        ++ (if (d.get "plan").truthy then [Eff.wsLog] else [])
        ++ [.wsThought, .logStep]
    let ty := classifyType d
    if ty.isStr "finish" then
      (pre ++ [.endSession "success", .reportLink, .wsSuccess], .finished, h)
    else if ty.isStr "fail" then
      (pre ++ [.endSession "failed", .reportLink, .wsError], .failedDecision, h)
    else
      let callEffs : List Eff :=
        [.wsLog, .execCall (forwardedSelector (actionOf d)) (forwardedValue (actionOf d))
          (forwardedNodeId (actionOf d))]
      match ex with
      | .error _ => (pre ++ callEffs ++ [.wsError], .critical, h)
      | .ok _ =>
        let h' := h ++ [d]
        let post : List Eff := [.wsState]
        if stepMode then
          match pause with
          | .cancelled => (pre ++ callEffs ++ post ++ [.wsPause], .cancelled, h')
          | .msg m =>
            if (m.get "type").isStr "stop" then
              (pre ++ callEffs ++ post ++ [.wsPause], .pauseStopped, h')
            else
              let r := runLoop stepMode rest h'
              (pre ++ callEffs ++ post ++ [.wsPause] ++ r.1, r.2.1, r.2.2)
        else
          let r := runLoop stepMode rest h'
          (pre ++ callEffs ++ post ++ r.1, r.2.1, r.2.2)

/-- A full session's transport/ReportSink trace: the loop trace, then the
`finally` block's report notification (`current_report_dir` is set by
`start_session` and never cleared), and — when the loop was cancelled by
`stop()` — the remainder of `stop()` after `await self.active_task`:
interrupt log, `end_session("stopped")`, report notification. -/
def runSession (stepMode : Bool) (script : List CycleIn) : List Eff × LoopExit :=
  let r := runLoop stepMode script []
  let fin := r.1 ++ [Eff.reportLink]
  match r.2.1 with
  | .cancelled => (fin ++ [.wsLog, .endSession "stopped", .reportLink], .cancelled)
  | e => (fin, e)

/-- A continuing cycle: the decision is mutating (neither `finish` nor
`fail`), execution returns, and in step mode the consumed pause message is
not a stop. -/
def continuingCycle (stepMode : Bool) : CycleIn → Bool
  | .cycle d (.ok _) pause =>
    !(classifyType d).isStr "finish" && !(classifyType d).isStr "fail"
      && (!stepMode ||
          (match pause with
           | .msg m => !(m.get "type").isStr "stop"
           | .cancelled => false))
  | _ => false

/-- A session-terminating cycle input of the kinds claim C2 enumerates:
Stop during the decision await, a `finish` decision, or a `fail`
decision. -/
def terminalCycle : CycleIn → Bool
  | .stopDuringDecide => true
  | .cycle d _ _ =>
    (classifyType d).isStr "finish" || (classifyType d).isStr "fail"

/-! ## The served websocket loop (`main.py websocket_endpoint`, inner loop)

The FastAPI endpoint runs its own copy of the sense–think–act loop; it is
the one with the `fail_retry` recovery (lines 177–188). -/

/-- The synthetic history entry appended when `execute_action` raises
(main.py lines 181–185). -/
def wsErrorStep (e : String) (full : J) : J :=
  J.obj [("plan", full.get "plan"),
         ("thought", J.str "Execution failed. Retrying with different strategy."),
         ("action", J.obj [("type", J.str "fail_retry"), ("error", J.str e)])]

/-- The step-mode pause wait of the websocket loop (lines 166–176): consume
queued messages until a `next_step` (resume, `some true`), a `stop`
(terminate, `some false`), or the queue model is exhausted (`none`, still
blocked); unparsable messages are skipped. -/
def drainPause : List J → Option Bool
  | [] => none
  | m :: rest =>
    if (m.get "type").isStr "next_step" then some true
    else if (m.get "type").isStr "stop" then some false
    else drainPause rest

/-- One websocket-loop cycle's inputs: a queued stop drained at the cycle
top, a queued message observed right after the state notification (line 112
`continue`), or a full cycle with the AI-call outcome, the
`execute_action` outcome, and the messages consumed if paused. -/
inductive WsCycleIn where
  | queuedStop
  | senseRestart
  | cycle (ai : Except String J) (exec : Except String Unit) (pause : List J)

/-- How the websocket inner loop left its `while active`. -/
inductive WsExit where
  | scriptEnd
  | stopped
  | aiError
  | success
  | failedDecision
  | blocked
deriving DecidableEq, Repr

/-- The inner action loop of `websocket_endpoint` (main.py lines 86–188):
a drained stop logs and terminates; an AI-call exception sends an error and
breaks; `finish`/`fail` notify and clear `active`; a mutating action is
executed — on success the decision joins the history (then the step-mode
pause), on exception the loop sends an error, appends the `fail_retry`
entry, sleeps the fixed backoff, and continues. -/
def wsRunLoop (stepMode : Bool) : List WsCycleIn → List J → List Eff × WsExit × List J
  | [], h => ([], .scriptEnd, h)
  | .queuedStop :: _, h => ([.wsLog], .stopped, h)
  | .senseRestart :: rest, h =>
    let r := wsRunLoop stepMode rest h
    (Eff.wsState :: r.1, r.2.1, r.2.2)
  | .cycle ai ex pause :: rest, h =>
    match ai with
    | .error _ => ([.wsState, .wsLog, .wsError], .aiError, h)
    | .ok full =>
      let pre : List Eff :=
        [.wsState, .wsLog]
          ++ (if (full.get "plan").truthy then [Eff.wsLog] else [])
          ++ [.wsThought]
      let ty := classifyType full
      if ty.isStr "finish" then (pre ++ [.wsSuccess], .success, h)
      else if ty.isStr "fail" then (pre ++ [.wsError], .failedDecision, h)
      else
        let callEffs : List Eff :=
          [.wsLog, .execCall (forwardedSelector (actionOf full)) (forwardedValue (actionOf full))
            (forwardedNodeId (actionOf full))]
        match ex with
        | .error e =>
          let h' := h ++ [wsErrorStep e full]
          let r := wsRunLoop stepMode rest h'
          (pre ++ callEffs ++ [.wsError, .sleepBackoff] ++ r.1, r.2.1, r.2.2)
        | .ok _ =>
          let h' := h ++ [full]
          let post : List Eff := [.wsState]
          if stepMode then
            match drainPause pause with
            | some true =>
              let r := wsRunLoop stepMode rest h'
              (pre ++ callEffs ++ post ++ [.wsPause] ++ r.1, r.2.1, r.2.2)
            | some false => (pre ++ callEffs ++ post ++ [.wsPause], .stopped, h')
            | none => (pre ++ callEffs ++ post ++ [.wsPause], .blocked, h')
          else
            let r := wsRunLoop stepMode rest h'
            (pre ++ callEffs ++ post ++ r.1, r.2.1, r.2.2)

/-! ## Concrete inputs used by counterexamples and witnesses -/

/-- A well-formed mutating decision, as the decision prompt's schema would
produce it with both a node id and (contrary to the schema, which names the
fallback field `locator`) a selector. -/
def clickDecision : J :=
  J.obj [("thought", J.str "press the button"),
         ("action", J.obj [("type", J.str "click"), ("nodeId", J.str "12"),
                           ("selector", J.str "#submit")])]

/-- A `finish` decision. -/
def finishDecision : J :=
  J.obj [("action", J.obj [("type", J.str "finish"),
                           ("reason", J.str "goal achieved")])]

/-- A mutating action dictionary that carries its target string only in the
`locator` field — the field the decision prompt's output schema designates
as the fallback. -/
def locatorOnlyAction : J :=
  J.obj [("type", J.str "click"), ("locator", J.str "#submit-btn")]

/-- An environment where everything succeeds except that `page.goto` times
out during a Tier-3 navigate. -/
def c4Env : BrowserEnv :=
  { hasPage := true, ax := ⟨true, .ok []⟩, boxModel := .ok none,
    evalDot := .ok (), mouseMove := .ok (), clickAct := .ok (),
    typeAct := .ok (), t1Idle := .ok (), locatorAct := .ok (),
    t2Idle := .ok (), gotoResult := .error "Timeout 30000ms exceeded",
    loadWait := .ok (), pressResult := .ok (), scrollEval := .ok (),
    finalIdle := .ok () }

/-- A button node resolvable by Tier 1. -/
def c7Node : RawNode :=
  { nodeId := some "5", roleValue := some "button",
    nameValue := some "Go".toList, ignored := false,
    backendDOMNodeId := some 33 }

/-- An environment where the Tier-1 pointer act itself succeeds but the
Tier-1 bounded network-idle wait times out, and Tier 2 would succeed. -/
def c7Env : BrowserEnv :=
  { hasPage := true, ax := ⟨true, .ok [c7Node]⟩,
    boxModel := .ok (some ⟨0, 0, 10, 0, 10, 10, 0, 10⟩),
    evalDot := .ok (), mouseMove := .ok (), clickAct := .ok (),
    typeAct := .ok (), t1Idle := .error "Timeout 5000ms exceeded",
    locatorAct := .ok (), t2Idle := .ok (),
    gotoResult := .ok (), loadWait := .ok (), pressResult := .ok (),
    scrollEval := .ok (), finalIdle := .ok () }

/-- An environment in which every primitive succeeds. -/
def allOkEnv : BrowserEnv :=
  { hasPage := true, ax := ⟨true, .ok [c7Node]⟩,
    boxModel := .ok (some ⟨0, 0, 10, 0, 10, 10, 0, 10⟩),
    evalDot := .ok (), mouseMove := .ok (), clickAct := .ok (),
    typeAct := .ok (), t1Idle := .ok (), locatorAct := .ok (),
    t2Idle := .ok (), gotoResult := .ok (), loadWait := .ok (),
    pressResult := .ok (), scrollEval := .ok (), finalIdle := .ok () }

/-! ## Theorems -/
/-- `simplify` is filtering followed by projection (used to state order
preservation). -/
theorem simplify_eq_filter_map (nodes : List RawNode) :
    simplify nodes = (nodes.filter codeKeep).map toCandidate := by
  induction nodes with
  | nil => rfl
  | cons n rest ih =>
    by_cases h : codeKeep n
    · simp [simplify, List.filter_cons, h, ih]
    · simp [simplify, List.filter_cons, h, ih]

/-- C5 (counterexample): a non-ignored node with role "heading" and name
"Hello" satisfies the claimed keep predicate (via its "name length > 0"
disjunct), yet the code's filter drops it: the code never keeps a node on
name length alone. -/
theorem c5_filter_counterexample :
    claimKeepC5 c5Node = true ∧ codeKeep c5Node = false ∧
      filterSnapshot [c5Node] = [] := by
  refine ⟨by decide, by decide, ?_⟩
  rfl

/-- C5 (amended): the filter keeps a node iff its ignored flag is false or
absent AND (its role is in the interactive-role set, OR it is a statictext
with name length > 3, OR an image with non-empty name); there is no general
keep-on-name clause.  Stated as: the simplification pass is exactly the
filter by the amended predicate followed by the per-node projection. -/
theorem c5_keep_iff_amended (nodes : List RawNode) :
    simplify nodes = (nodes.filter amendedKeepC5).map toCandidate ∧
      ∀ n : RawNode, codeKeep n = amendedKeepC5 n := by
  have hpt : ∀ n : RawNode, codeKeep n = amendedKeepC5 n := by
    intro n
    simp only [codeKeep, amendedKeepC5, Bool.and_comm]
  constructor
  · rw [simplify_eq_filter_map]
    congr 1
    exact List.filter_congr (fun n _ => hpt n)
  · exact hpt

/-- C6: for every raw node list the snapshot body has length at most 200,
equals the first at-most-200 source-order nodes passing the code's keep
predicate (projected), and every emitted name has at most 100 characters. -/
theorem c6_filter_bound_order_truncation (nodes : List RawNode) :
    (filterSnapshot nodes).length ≤ 200 ∧
      filterSnapshot nodes = ((nodes.filter codeKeep).map toCandidate).take 200 ∧
      ∀ c ∈ filterSnapshot nodes, c.name.length ≤ 100 := by
  refine ⟨List.length_take_le 200 _, by rw [filterSnapshot, simplify_eq_filter_map], ?_⟩
  intro c hc
  have hmem : c ∈ simplify nodes := List.mem_of_mem_take hc
  rw [simplify_eq_filter_map] at hmem
  obtain ⟨n, _, rfl⟩ := List.mem_map.mp hmem
  exact List.length_take_le 100 _

/-- C10: the public accessibility-snapshot call never surfaces an error: it
always returns a dictionary with the single key "nodes" holding a list (the
`Snapshot` record); when no CDP session exists, or the raw-tree fetch (or the
filtering inside the same `try`) raises, that list is exactly empty. -/
theorem c10_snapshot_total (env : AxEnv) :
    (env.hasCdp = false → get_accessibility_snapshot env = ⟨[]⟩) ∧
      (∀ e, env.fetch = .error e → get_accessibility_snapshot env = ⟨[]⟩) ∧
      (∀ raw, env.hasCdp = true → env.fetch = .ok raw →
        get_accessibility_snapshot env = ⟨filterSnapshot raw⟩) := by
  refine ⟨fun h => by simp [get_accessibility_snapshot, h], ?_, ?_⟩
  · intro e he
    by_cases h : env.hasCdp <;> simp [get_accessibility_snapshot, h, he]
  · intro raw h hf
    simp [get_accessibility_snapshot, h, hf]

/-- Witness for C10 at concrete environments: a missing CDP session and a
raised fetch both yield the empty snapshot, a successful fetch yields the
filtered body. -/
theorem c10_snapshot_total_witness :
    get_accessibility_snapshot ⟨false, .error "no cdp"⟩ = ⟨[]⟩ ∧
      get_accessibility_snapshot ⟨true, .error "CDP detached"⟩ = ⟨[]⟩ ∧
      get_accessibility_snapshot ⟨true, .ok [c5Node]⟩ = ⟨filterSnapshot [c5Node]⟩ :=
  ⟨(c10_snapshot_total ⟨false, .error "no cdp"⟩).1 rfl,
   (c10_snapshot_total ⟨true, .error "CDP detached"⟩).2.1 "CDP detached" rfl,
   (c10_snapshot_total ⟨true, .ok [c5Node]⟩).2.2 [c5Node] rfl rfl⟩

/-! ## Helper lemmas -/

/-- The Python string-equality test on a dynamic value holds exactly for the
equal string. -/
theorem isStr_true_iff (j : J) (s : String) : j.isStr s = true ↔ j = J.str s := by
  cases j <;> simp [J.isStr]

/-- A continuing cycle contributes no `EndSession` and no report
notification, and the loop recurses past it. -/
theorem runLoop_cons_continuing (stepMode : Bool) (c : CycleIn)
    (rest : List CycleIn) (h : List J)
    (hc : continuingCycle stepMode c = true) :
    ∃ effs h', runLoop stepMode (c :: rest) h =
        (effs ++ (runLoop stepMode rest h').1,
         (runLoop stepMode rest h').2.1, (runLoop stepMode rest h').2.2) ∧
      effs.countP Eff.isEnd = 0 ∧ effs.countP Eff.isReport = 0 := by
  cases c with
  | stopDuringDecide => simp [continuingCycle] at hc
  | cycle d ex pause =>
    cases ex with
    | error e => simp [continuingCycle] at hc
    | ok u =>
      simp only [continuingCycle, Bool.and_eq_true, Bool.not_eq_true'] at hc
      obtain ⟨⟨hfin, hfail⟩, hstep⟩ := hc
      cases stepMode with
      | false =>
        refine ⟨[Eff.wsState, Eff.wsLog]
            ++ (if (d.get "plan").truthy then [Eff.wsLog] else [])
            ++ [Eff.wsThought, Eff.logStep, Eff.wsLog,
                Eff.execCall (forwardedSelector (actionOf d)) (forwardedValue (actionOf d))
                  (forwardedNodeId (actionOf d)), Eff.wsState],
          h ++ [d], ?_, ?_, ?_⟩
        · simp [runLoop, hfin, hfail]
        · by_cases hp : (d.get "plan").truthy <;> simp [hp, Eff.isEnd]
        · by_cases hp : (d.get "plan").truthy <;> simp [hp, Eff.isReport]
      | true =>
        cases pause with
        | cancelled => simp at hstep
        | msg m =>
          simp only [Bool.not_true, Bool.false_or, Bool.not_eq_true'] at hstep
          refine ⟨[Eff.wsState, Eff.wsLog]
              ++ (if (d.get "plan").truthy then [Eff.wsLog] else [])
              ++ [Eff.wsThought, Eff.logStep, Eff.wsLog,
                  Eff.execCall (forwardedSelector (actionOf d)) (forwardedValue (actionOf d))
                    (forwardedNodeId (actionOf d)), Eff.wsState, Eff.wsPause],
            h ++ [d], ?_, ?_, ?_⟩
          · simp [runLoop, hfin, hfail, hstep]
          · by_cases hp : (d.get "plan").truthy <;> simp [hp, Eff.isEnd]
          · by_cases hp : (d.get "plan").truthy <;> simp [hp, Eff.isReport]

/-- Continuing cycles accumulate: the loop over `pre ++ rest` is the loop
over `rest` from some later history, with zero `EndSession`/report effects
contributed by `pre`. -/
theorem runLoop_append_continuing (stepMode : Bool) (pre rest : List CycleIn)
    (h : List J) (hpre : ∀ c ∈ pre, continuingCycle stepMode c = true) :
    ∃ effs h', runLoop stepMode (pre ++ rest) h =
        (effs ++ (runLoop stepMode rest h').1,
         (runLoop stepMode rest h').2.1, (runLoop stepMode rest h').2.2) ∧
      effs.countP Eff.isEnd = 0 ∧ effs.countP Eff.isReport = 0 := by
  induction pre generalizing h with
  | nil => exact ⟨[], h, by simp, rfl, rfl⟩
  | cons c pre ih =>
    obtain ⟨effs₁, h₁, heq₁, he₁, hr₁⟩ :=
      runLoop_cons_continuing stepMode c (pre ++ rest) h (hpre c (by simp))
    obtain ⟨effs₂, h₂, heq₂, he₂, hr₂⟩ := ih h₁ (fun x hx => hpre x (by simp [hx]))
    refine ⟨effs₁ ++ effs₂, h₂, ?_, ?_, ?_⟩
    · rw [List.cons_append] at *
      rw [heq₁, heq₂]
      simp [List.append_assoc]
    · simp [List.countP_append, he₁, he₂]
    · simp [List.countP_append, hr₁, hr₂]

/-! ## Claim theorems: orchestrator session (C1, C2) -/

/-- C1 (code evaluated at the failing input): when the DecisionService call
fails (raised, timed out, or unparsable body), the value the orchestrator
consumes is the agent's fallback dictionary — but that dictionary is flat
(`{"type": "fail", ...}`), so `full_decision.get("action", {})` is `{}`, the
classified kind is `None` rather than `"fail"`, and the loop takes the
mutating branch and keeps running: no `EndSession` is recorded, the history
gains the fallback entry, and the session is not terminated as Failed. -/
theorem c1_decision_failure_not_classified_as_fail :
    (analyze_state_and_decide (.error "Expecting value: line 1 column 1 (char 0)")
        = agentFailFallback "Expecting value: line 1 column 1 (char 0)") ∧
    (classifyType (agentFailFallback "Expecting value: line 1 column 1 (char 0)")
        = J.null) ∧
    ((classifyType (agentFailFallback "Expecting value: line 1 column 1 (char 0)")).isStr "fail"
        = false) ∧
    (runLoop false
        [CycleIn.cycle (agentFailFallback "Expecting value: line 1 column 1 (char 0)")
          (.ok ()) (PauseIn.msg J.null)] []
      = ([Eff.wsState, Eff.wsLog, Eff.wsThought, Eff.logStep, Eff.wsLog,
          Eff.execCall J.null J.null J.null, Eff.wsState],
         LoopExit.scriptEnd,
         [agentFailFallback "Expecting value: line 1 column 1 (char 0)"])) := by
  refine ⟨rfl, rfl, rfl, ?_⟩
  rfl

/-- C2 (counterexample): on the natural-completion exit (a `finish`
decision), the session trace carries the `report{url}` notification twice —
once from the `finish` branch, once from the loop's `finally` block — not
exactly once as claimed (`EndSession` is recorded once). -/
theorem c2_report_notified_twice_on_finish :
    ((runSession false [CycleIn.cycle finishDecision (.ok ()) (PauseIn.msg J.null)]).1.countP
        Eff.isReport = 2) ∧
    ((runSession false [CycleIn.cycle finishDecision (.ok ()) (PauseIn.msg J.null)]).1.countP
        Eff.isEnd = 1) ∧
    (runSession false [CycleIn.cycle finishDecision (.ok ()) (PauseIn.msg J.null)]).2
      = LoopExit.finished := by
  refine ⟨?_, ?_, rfl⟩ <;> rfl

/-- C2 (amended): on every exit path the claim enumerates — natural
completion via `finish`, decision-declared `fail`, and external Stop
including one arriving while the loop awaits the DecisionService — exactly
one `EndSession` call is recorded, but the `report{url}` notification is
emitted exactly twice (once by the terminal branch or by `stop()`, once by
the loop's `finally`), never zero and never once. -/
theorem c2_amended_end_once_report_twice (stepMode : Bool) (pre : List CycleIn)
    (t : CycleIn) (hpre : ∀ c ∈ pre, continuingCycle stepMode c = true)
    (ht : terminalCycle t = true) :
    (runSession stepMode (pre ++ [t])).1.countP Eff.isEnd = 1 ∧
      (runSession stepMode (pre ++ [t])).1.countP Eff.isReport = 2 := by
  obtain ⟨effs, h', heq, he, hr⟩ :=
    runLoop_append_continuing stepMode pre [t] [] hpre
  cases t with
  | stopDuringDecide =>
    have hloop : runLoop stepMode [CycleIn.stopDuringDecide] h' =
        ([Eff.wsState, Eff.wsLog], .cancelled, h') := rfl
    rw [runSession, heq, hloop]
    simp [List.countP_append, he, hr, Eff.isEnd, Eff.isReport]
  | cycle d ex pause =>
    simp only [terminalCycle, Bool.or_eq_true] at ht
    rcases ht with hfin | hfail
    · have hloop : runLoop stepMode [CycleIn.cycle d ex pause] h' =
          (([Eff.wsState, Eff.wsLog]
              ++ (if (d.get "plan").truthy then [Eff.wsLog] else [])
              ++ [Eff.wsThought, Eff.logStep])
            ++ [Eff.endSession "success", Eff.reportLink, Eff.wsSuccess],
           .finished, h') := by
        simp [runLoop, hfin]
      rw [runSession, heq, hloop]
      by_cases hp : (d.get "plan").truthy <;>
        simp [List.countP_append, he, hr, hp, Eff.isEnd, Eff.isReport]
    · have hnotfin : (classifyType d).isStr "finish" = false := by
        cases hb : (classifyType d).isStr "finish"
        · rfl
        · exfalso
          rw [isStr_true_iff] at hb hfail
          rw [hb] at hfail
          simp at hfail
      have hloop : runLoop stepMode [CycleIn.cycle d ex pause] h' =
          (([Eff.wsState, Eff.wsLog]
              ++ (if (d.get "plan").truthy then [Eff.wsLog] else [])
              ++ [Eff.wsThought, Eff.logStep])
            ++ [Eff.endSession "failed", Eff.reportLink, Eff.wsError],
           .failedDecision, h') := by
        simp [runLoop, hnotfin, hfail]
      rw [runSession, heq, hloop]
      by_cases hp : (d.get "plan").truthy <;>
        simp [List.countP_append, he, hr, hp, Eff.isEnd, Eff.isReport]

/-- Witness for the amended C2 at a concrete session: one mutating click
cycle followed by a `finish` decision. -/
theorem c2_amended_witness :
    (∀ c ∈ [CycleIn.cycle clickDecision (.ok ()) (PauseIn.msg J.null)],
        continuingCycle false c = true) ∧
    terminalCycle (CycleIn.cycle finishDecision (.ok ()) (PauseIn.msg J.null)) = true ∧
    (runSession false
        ([CycleIn.cycle clickDecision (.ok ()) (PauseIn.msg J.null)]
          ++ [CycleIn.cycle finishDecision (.ok ()) (PauseIn.msg J.null)])).1.countP
      Eff.isEnd = 1 ∧
    (runSession false
        ([CycleIn.cycle clickDecision (.ok ()) (PauseIn.msg J.null)]
          ++ [CycleIn.cycle finishDecision (.ok ()) (PauseIn.msg J.null)])).1.countP
      Eff.isReport = 2 := by
  have hpre : ∀ c ∈ [CycleIn.cycle clickDecision (.ok ()) (PauseIn.msg J.null)],
      continuingCycle false c = true := by
    intro c hc
    rw [List.mem_singleton] at hc
    subst hc
    rfl
  have h := c2_amended_end_once_report_twice false
    [CycleIn.cycle clickDecision (.ok ()) (PauseIn.msg J.null)]
    (CycleIn.cycle finishDecision (.ok ()) (PauseIn.msg J.null)) hpre rfl
  exact ⟨hpre, rfl, h.1, h.2⟩

/-! ## Claim theorems: escalation flag (C8) and execution-error recovery (C3) -/

/-- C8: the tier-escalation flag (`use_pro`) is true iff the history is
empty or the last entry's action kind is `"fail"`; in particular it is true
for `[]`, false for `[{action: {type: "click"}}]`, and true for
`[{action: {type: "fail"}}]`. -/
theorem c8_escalation_policy (h : List J) :
    (use_pro h = true ↔
      (h = [] ∨ ∃ last, h.getLast? = some last ∧
        (last.getD "action" (J.obj [])).get "type" = J.str "fail")) ∧
    use_pro [] = true ∧
    use_pro [J.obj [("action", J.obj [("type", J.str "click")])]] = false ∧
    use_pro [J.obj [("action", J.obj [("type", J.str "fail")])]] = true := by
  refine ⟨?_, rfl, rfl, rfl⟩
  unfold use_pro
  cases hL : h.getLast? with
  | none =>
    have hnil : h = [] := List.getLast?_eq_none_iff.mp hL
    subst hnil
    simp
  | some last =>
    have hne : h ≠ [] := by
      intro hnil
      subst hnil
      simp at hL
    have hie : h.isEmpty = false := by
      cases h
      · exact absurd rfl hne
      · rfl
    rw [hie]
    simp only [Bool.false_or]
    rw [isStr_true_iff]
    constructor
    · intro hf
      exact Or.inr ⟨last, rfl, hf⟩
    · rintro (hnil | ⟨last', hL', hf⟩)
      · exact absurd hnil hne
      · injection hL' with hll
        rw [hll]
        exact hf

/-- C3: an exception while executing a mutating action is caught locally by
the served websocket loop: it notifies the error, appends a synthetic
history entry whose action kind is `"fail_retry"` carrying the error text,
sleeps the fixed backoff, and continues with the rest of the session — the
exit state is whatever the continuation produces, so an action-execution
error never terminates the session by itself. -/
theorem c3_action_error_fail_retry (full : J) (e : String)
    (rest : List WsCycleIn) (h : List J)
    (hfin : (classifyType full).isStr "finish" = false)
    (hfail : (classifyType full).isStr "fail" = false) :
    (wsRunLoop false (WsCycleIn.cycle (.ok full) (.error e) [] :: rest) h =
      (([Eff.wsState, Eff.wsLog]
          ++ (if (full.get "plan").truthy then [Eff.wsLog] else [])
          ++ [Eff.wsThought, Eff.wsLog,
              Eff.execCall (forwardedSelector (actionOf full)) (forwardedValue (actionOf full))
                (forwardedNodeId (actionOf full)),
              Eff.wsError, Eff.sleepBackoff])
          ++ (wsRunLoop false rest (h ++ [wsErrorStep e full])).1,
        (wsRunLoop false rest (h ++ [wsErrorStep e full])).2.1,
        (wsRunLoop false rest (h ++ [wsErrorStep e full])).2.2)) ∧
    classifyType (wsErrorStep e full) = J.str "fail_retry" ∧
    ((wsErrorStep e full).getD "action" (J.obj [])).get "error" = J.str e := by
  refine ⟨?_, rfl, rfl⟩
  simp [wsRunLoop, hfin, hfail]

/-- Witness for C3: a concrete mutating click decision whose execution
raises `"all tiers exhausted"` leaves the loop running (script end, not a
terminal exit) with the `fail_retry` entry appended. -/
theorem c3_action_error_fail_retry_witness :
    (classifyType clickDecision).isStr "finish" = false ∧
    (classifyType clickDecision).isStr "fail" = false ∧
    (wsRunLoop false [WsCycleIn.cycle (.ok clickDecision)
        (.error "all tiers exhausted") []] []).2.1 = WsExit.scriptEnd ∧
    (wsRunLoop false [WsCycleIn.cycle (.ok clickDecision)
        (.error "all tiers exhausted") []] []).2.2
      = [wsErrorStep "all tiers exhausted" clickDecision] := by
  have h := c3_action_error_fail_retry clickDecision "all tiers exhausted" [] [] rfl rfl
  refine ⟨rfl, rfl, ?_, ?_⟩
  · rw [h.1]
    rfl
  · rw [h.1]
    rfl

/-! ## Claim theorems: BrowserInteractionLayer (C4, C7, C9) -/

/-- C4 (counterexample): with an active page, a Tier-3 `navigate` whose
`page.goto` times out propagates the exception to the caller — `Execute`
raises although a page exists, so "raises iff no active page" is false. -/
theorem c4_navigate_timeout_propagates :
    c4Env.hasPage = true ∧
      execute_action c4Env (J.str "navigate") J.null (J.str "example.com") J.null
        = ⟨.error "Timeout 30000ms exceeded", [Tier.t3nav]⟩ := by
  exact ⟨rfl, rfl⟩

/-- When Tier 2 does not apply (no truthy selector or wrong action kind),
no branch of `execute_action` records a Tier-2 attempt. -/
theorem t2_not_attempted (env : BrowserEnv) (k sel v nid : J)
    (h : tier2Applies k sel = false) :
    Tier.t2 ∉ (execute_action env k sel v nid).tiers := by
  unfold execute_action
  simp only [h, Bool.false_and, Bool.false_eq_true, if_false, List.append_nil]
  repeat' split
  all_goals simp_all

/-- C9: for every decision action dictionary, the loops forward
`value or url or key` as the value, the `selector` field as the selector,
and the `locator` field not at all; hence an action whose only target
string sits in `locator` (the field the decision prompt's schema names for
the fallback) yields a `None` selector, Tier 2 never applies, and no
Tier-2 attempt can occur in any environment. -/
theorem c9_locator_field_never_executed (env : BrowserEnv) (a k : J)
    (h : a.get "selector" = J.null) :
    forwardedValue a = ((a.get "value").pyOr (a.get "url")).pyOr (a.get "key") ∧
      forwardedSelector a = a.get "selector" ∧
      tier2Applies k (forwardedSelector a) = false ∧
      Tier.t2 ∉ (execute_action env k (forwardedSelector a) (forwardedValue a)
        (forwardedNodeId a)).tiers := by
  have hsel : forwardedSelector a = J.null := h
  have happ : tier2Applies k (forwardedSelector a) = false := by
    rw [hsel]
    rfl
  exact ⟨rfl, rfl, happ,
    t2_not_attempted env k (forwardedSelector a) (forwardedValue a) (forwardedNodeId a) happ⟩

/-- Witness for C9 at the concrete locator-only click action: the selector
argument is `None` and the Tier-2 fallback is never attempted even in an
all-succeeding environment. -/
theorem c9_locator_field_never_executed_witness :
    locatorOnlyAction.get "selector" = J.null ∧
      forwardedSelector locatorOnlyAction = J.null ∧
      Tier.t2 ∉ (execute_action allOkEnv (J.str "click")
        (forwardedSelector locatorOnlyAction) (forwardedValue locatorOnlyAction)
        (forwardedNodeId locatorOnlyAction)).tiers := by
  have h := c9_locator_field_never_executed allOkEnv locatorOnlyAction (J.str "click") rfl
  exact ⟨rfl, rfl, h.2.2.2⟩

/-- C7 (counterexample): the pointer act itself succeeds (`clickAct` is ok)
but the Tier-1 bounded network-idle wait times out; because that wait sits
inside the Tier-1 `try`, the timeout is caught as a Tier-1 failure and the
call falls through to Tier 2 and re-attempts the action there — the
attempted tiers are `[t1, t2]`, not a Tier-1 success. -/
theorem c7_idle_timeout_falls_through_to_tier2 :
    c7Env.clickAct = .ok () ∧
      c7Env.t1Idle = .error "Timeout 5000ms exceeded" ∧
      execute_action c7Env (J.str "click") (J.str "#go") J.null (J.str "5")
        = ⟨.ok (), [Tier.t1, Tier.t2]⟩ := by
  exact ⟨rfl, rfl, rfl⟩

/-- C7 (amended): a timeout of the Tier-1 network-idle wait is fatal to
Tier 1 — the tier never reports success when that wait raises — and when
Tier 2 applies and succeeds the call is re-attempted and satisfied at
Tier 2.  (Only the final, post-Tier-3 idle wait is non-fatal.) -/
theorem c7_amended_idle_timeout_is_tier1_failure (env : BrowserEnv)
    (k sel v nid : J) (hp : env.hasPage = true)
    (hidle : exOk env.t1Idle = false) :
    tier1Attempt env k v nid = false ∧
      (tier2Applies k sel = true → tier2Attempt env k v = true →
        execute_action env k sel v nid =
          ⟨.ok (), (if tier1Applies k nid then [Tier.t1] else []) ++ [Tier.t2]⟩) := by
  have ht1 : tier1Attempt env k v nid = false := by
    unfold tier1Attempt
    repeat' split
    all_goals simp [hidle]
  refine ⟨ht1, fun h2a h2b => ?_⟩
  unfold execute_action
  simp [hp, ht1, h2a, h2b]

/-- Witness for the amended C7 at the concrete environment `c7Env`. -/
theorem c7_amended_idle_timeout_witness :
    c7Env.hasPage = true ∧ exOk c7Env.t1Idle = false ∧
      tier2Applies (J.str "click") (J.str "#go") = true ∧
      execute_action c7Env (J.str "click") (J.str "#go") J.null (J.str "5")
        = ⟨.ok (), (if tier1Applies (J.str "click") (J.str "5") then [Tier.t1] else [])
            ++ [Tier.t2]⟩ :=
  ⟨rfl, rfl, rfl,
    (c7_amended_idle_timeout_is_tier1_failure c7Env (J.str "click") (J.str "#go") J.null
      (J.str "5") rfl rfl).2 rfl rfl⟩

/-- C4 (amended): `Execute` raises iff the page is absent, or no tier
satisfied the action and an unguarded Tier-3 primitive raised: a truthy
navigate target whose `goto`/load-wait raises (or is not a string), a
`press` with a missing/non-string key or a raising dispatch, or a
targetless scroll whose evaluate raises.  Tier-1 and Tier-2 failures never
propagate, and the final idle wait never affects the outcome. -/
theorem c4_amended_raise_characterization (env : BrowserEnv) (k sel v nid : J) :
    exOk (execute_action env k sel v nid).outcome =
      (env.hasPage &&
        ((tier1Applies k nid && tier1Attempt env k v nid)
          || (tier2Applies k sel && tier2Attempt env k v)
          || !tier3Error env k sel v)) := by
  cases hp : env.hasPage with
  | false => simp [execute_action, hp, exOk]
  | true =>
    cases h1 : tier1Applies k nid && tier1Attempt env k v nid with
    | true => simp [execute_action, hp, h1, exOk]
    | false =>
      cases h2 : tier2Applies k sel && tier2Attempt env k v with
      | true => simp [execute_action, hp, h1, h2, exOk]
      | false =>
        by_cases hnav : k.isStr "navigate" = true
        · rw [isStr_true_iff] at hnav
          subst hnav
          by_cases hu : (v.pyOr sel).truthy = true
          · rcases hvu : v.pyOr sel with _ | b | n | u | xs | kvs <;> rw [hvu] at hu
            · simp [J.truthy] at hu
            · simp [execute_action, tier3Error, J.isStr, hp, h1, h2, hvu, hu, exOk]
            · simp [execute_action, tier3Error, J.isStr, hp, h1, h2, hvu, hu, exOk]
            · cases hg : env.gotoResult with
              | error e =>
                simp [execute_action, tier3Error, J.isStr, hp, h1, h2, hvu, hu, hg, exOk]
              | ok w =>
                cases hl : env.loadWait with
                | error e =>
                  simp [execute_action, tier3Error, J.isStr, hp, h1, h2, hvu, hu, hg, hl, exOk]
                | ok w' =>
                  simp [execute_action, tier3Error, J.isStr, hp, h1, h2, hvu, hu, hg, hl, exOk]
            · simp [execute_action, tier3Error, J.isStr, hp, h1, h2, hvu, hu, exOk]
            · simp [execute_action, tier3Error, J.isStr, hp, h1, h2, hvu, hu, exOk]
          · have hu' : (v.pyOr sel).truthy = false := by
              rwa [Bool.not_eq_true] at hu
            simp [execute_action, tier3Error, J.isStr, hp, h1, h2, hu', exOk]
        · have hnav' : k.isStr "navigate" = false := by
            rwa [Bool.not_eq_true] at hnav
          by_cases hpress : k.isStr "press" = true
          · rw [isStr_true_iff] at hpress
            subst hpress
            rcases v with _ | b | n | u | xs | kvs
            · simp [execute_action, tier3Error, J.isStr, hp, h1, h2, exOk]
            · simp [execute_action, tier3Error, J.isStr, hp, h1, h2, exOk]
            · simp [execute_action, tier3Error, J.isStr, hp, h1, h2, exOk]
            · cases hpr : env.pressResult with
              | error e =>
                simp [execute_action, tier3Error, J.isStr, hp, h1, h2, hpr, exOk]
              | ok w =>
                simp [execute_action, tier3Error, J.isStr, hp, h1, h2, hpr, exOk]
            · simp [execute_action, tier3Error, J.isStr, hp, h1, h2, exOk]
            · simp [execute_action, tier3Error, J.isStr, hp, h1, h2, exOk]
          · have hpress' : k.isStr "press" = false := by
              rwa [Bool.not_eq_true] at hpress
            by_cases hscr : k.isStr "scroll" = true
            · rw [isStr_true_iff] at hscr
              subst hscr
              by_cases hsel : sel.truthy = true
              · simp [execute_action, tier3Error, J.isStr, hp, h1, h2, hsel, exOk]
              · have hsel' : sel.truthy = false := by
                  rwa [Bool.not_eq_true] at hsel
                cases hse : env.scrollEval with
                | error e =>
                  simp [execute_action, tier3Error, J.isStr, hp, h1, h2, hsel', hse, exOk]
                | ok w =>
                  simp [execute_action, tier3Error, J.isStr, hp, h1, h2, hsel', hse, exOk]
            · have hscr' : k.isStr "scroll" = false := by
                rwa [Bool.not_eq_true] at hscr
              simp [execute_action, tier3Error, hp, h1, h2, hnav', hpress', hscr', exOk]

/-- Witness for C6 at a concrete node list: the single kept button node is
emitted with its (already short) name, within both bounds. -/
theorem c6_filter_bound_witness :
    (filterSnapshot [c7Node]).length ≤ 200 ∧
      filterSnapshot [c7Node] = (([c7Node].filter codeKeep).map toCandidate).take 200 ∧
      (toCandidate c7Node).name.length ≤ 100 := by
  have h := c6_filter_bound_order_truncation [c7Node]
  refine ⟨h.1, h.2.1, h.2.2 (toCandidate c7Node) ?_⟩
  decide
